import Mathlib

/-!
# Verification of the aparato PCI-device enumeration core

The repository's `src/lib.rs` declares the public surface of the crate: the
`Properties` trait (constructor `new`), the crate-private `PrivateProperties`
trait (read-only getters and hidden setters used by `init`), and the `Fetch`
trait (`fetch`, `fetch_by_class`, `fetch_gpus`).  The per-platform
implementation modules (`linux`, `classes`, `extra`) are referenced by
`lib.rs` but their sources are not part of this tree, so the behavioral
definitions below are modelled from the specification (address normalizer
§4.1, identifier database §4.2, initializer §4.3, enumerator §4.4, GPU name
refiner §4.5), faithful to its words.  External collaborators (the
platform attribute source, the device registry listing) are parameters of
the model, as the spec treats them as pluggable data sources.
-/

namespace Aparato

/-- Hexadecimal value of a character, `none` when the character is not a hex
digit.  Used by the address normalizer to parse address components. -/
def hexVal (c : Char) : Option Nat :=
  if '0' ≤ c ∧ c ≤ '9' then some (c.toNat - '0'.toNat)
  else if 'a' ≤ c ∧ c ≤ 'f' then some (c.toNat - 'a'.toNat + 10)
  else if 'A' ≤ c ∧ c ≤ 'F' then some (c.toNat - 'A'.toNat + 10)
  else none

/-- Whether a character is a hexadecimal digit. -/
def isHexDigit (c : Char) : Bool :=
  (hexVal c).isSome

/-- Accumulating hexadecimal parse of a character list; fails on the first
non-hex character. -/
def parseHexCore : List Char → Nat → Option Nat
  | [], acc => some acc
  | c :: rest, acc =>
    match hexVal c with
    | none => none
    | some v => parseHexCore rest (acc * 16 + v)

/-- Parse a hexadecimal component of exactly the expected width `w`
(spec §4.1: "each component is parsed as hexadecimal", failing when a
component "is not valid hexadecimal of the expected width"). -/
def parseHexW (w : Nat) (l : List Char) : Option Nat :=
  if l.length = w then parseHexCore l 0 else none

/-- Whether a character list contains the character `c`. -/
def containsChar (c : Char) : List Char → Bool
  | [] => false
  | a :: rest => if a = c then true else containsChar c rest

/-- Prepend a character onto the first group of a split result. -/
def consHead (c : Char) : List (List Char) → List (List Char)
  | [] => [[c]]
  | h :: t => (c :: h) :: t

/-- Split a character list on a separator character, keeping empty groups. -/
def splitOnChar (sep : Char) : List Char → List (List Char)
  | [] => [[]]
  | c :: rest =>
    if c = sep then [] :: splitOnChar sep rest
    else consHead c (splitOnChar sep rest)

/-- A canonical PCI location: the domain:bus:device.function 4-tuple
(spec §3, `location`). -/
structure Location where
  domain : Nat
  bus : Nat
  dev : Nat
  func : Nat
deriving DecidableEq

/-- Modelled from the spec (§4.1): a full-form string `DDDD:BB:DD.F` is
"parsed into the 4-tuple by splitting on `:` then `.`; each component is
parsed as hexadecimal" of widths 4, 2, 2, 1. -/
def parseFullForm (l : List Char) : Option Location :=
  match splitOnChar ':' l with
  | [d, b, df] =>
    match splitOnChar '.' df with
    | [dv, f] =>
      match parseHexW 4 d, parseHexW 2 b, parseHexW 2 dv, parseHexW 1 f with
      | some dd, some bb, some dvv, some ff =>
        some { domain := dd, bus := bb, dev := dvv, func := ff }
      | _, _, _, _ => none
    | _ => none
  | _ => none

/-- The last `/`-separated segment of a character list. -/
def lastSegment (l : List Char) : List Char :=
  (splitOnChar '/' l).getLastD []

/-- Modelled from the spec (§4.1 Address Normalizer, whose implementation
module is absent from the tree): accepts (a) short form `BB:DD.F`, expanded
"by prepending domain `0000`", (b) full form `DDDD:BB:DD.F`, (c) an absolute
registry path whose trailing segment is the full form; returns the parsed
location together with the canonical full-form character list, or `none`
when the string matches no shape or a component is not valid hex of the
expected width. -/
def normalizeChars (l : List Char) : Option (Location × List Char) :=
  if containsChar '/' l then
    let seg := lastSegment l
    match parseFullForm seg with
    | some loc => some (loc, seg)
    | none => none
  else
    match splitOnChar ':' l with
    | [_, _, _] =>
      match parseFullForm l with
      | some loc => some (loc, l)
      | none => none
    | [_, _] =>
      let full := '0' :: '0' :: '0' :: '0' :: ':' :: l
      match parseFullForm full with
      | some loc => some (loc, full)
      | none => none
    | _ => none

/-- String-level address normalization: the canonical full-form address
string, or `none` for an unresolvable address. -/
def normalize (s : String) : Option String :=
  (normalizeChars s.data).map fun p => String.mk p.2

/-- Modelled from the spec (§4.1): the platform device-registry root the
output path handle is joined with; on the Linux backend this is the sysfs
PCI device directory, as in the `lib.rs` doc examples. -/
def registryRoot : List Char :=
  ['/', 's', 'y', 's', '/', 'b', 'u', 's', '/', 'p', 'c', 'i', '/',
   'd', 'e', 'v', 'i', 'c', 'e', 's', '/']

/-- Modelled from the spec (§6 Attribute Source interface): the raw
per-device fields a platform backend reports for a resolved location.
"Any field may be reported absent; only vendor/device/class ids are
mandatory."  Identifier fields are raw byte sequences, flag and NUMA
fields raw text. -/
structure RawAttributes where
  vendor_id : Option (List Nat)
  device_id : Option (List Nat)
  class_id : Option (List Nat)
  revision : Option (List Nat)
  subsystem_vendor_id : Option (List Nat)
  subsystem_device_id : Option (List Nat)
  enabled : Option String
  d3cold_allowed : Option String
  numa_node : Option String
deriving DecidableEq

/-- The external Attribute Source: per resolved location, the raw fields. -/
def AttributeSource : Type :=
  Location → RawAttributes

/-- Modelled from the spec (§4.2 Identifier Database): a static table
mapping vendor ids, (vendor, device) id pairs, class ids and subsystem id
pairs to display names. -/
structure IdDatabase where
  vendors : List (List Nat × String)
  devices : List ((List Nat × List Nat) × String)
  classes : List (List Nat × String)
  subsystems : List ((List Nat × List Nat) × String)

/-- Spec §4.2 `lookup_vendor(vendor_id) -> Option<String>`: pure table
lookup; a missing entry returns no value rather than failing. -/
def lookup_vendor (db : IdDatabase) (v : List Nat) : Option String :=
  db.vendors.lookup v

/-- Spec §4.2 `lookup_device(vendor_id, device_id) -> Option<String>`. -/
def lookup_device (db : IdDatabase) (v d : List Nat) : Option String :=
  db.devices.lookup (v, d)

/-- Spec §4.2 `lookup_class(class_id) -> Option<String>`. -/
def lookup_class (db : IdDatabase) (c : List Nat) : Option String :=
  db.classes.lookup c

/-- Spec §4.2 `lookup_subsystem(vendor_id, device_id) -> Option<String>`. -/
def lookup_subsystem (db : IdDatabase) (v d : List Nat) : Option String :=
  db.subsystems.lookup (v, d)

/-- Accumulating decimal parse of a character list; fails on a non-digit. -/
def parseDecCore : List Char → Nat → Option Nat
  | [], acc => some acc
  | c :: rest, acc =>
    if '0' ≤ c ∧ c ≤ '9' then parseDecCore rest (acc * 10 + (c.toNat - '0'.toNat))
    else none

/-- Parse a non-empty decimal numeral. -/
def parseDecNat : List Char → Option Nat
  | [] => none
  | l => parseDecCore l 0

/-- Parse a signed decimal integer (an optional leading minus sign). -/
def parseDecInt : List Char → Option Int
  | '-' :: rest => (parseDecNat rest).map fun n => -(n : Int)
  | l => (parseDecNat l).map fun n => (n : Int)

/-- Modelled from the spec (§4.3 step 8): the `numa_node` field parsed from
its raw text; "a non-numeric or absent `numa_node` source yields `-1`". -/
def numaFromSource (o : Option String) : Int :=
  match o with
  | none => -1
  | some t => (parseDecInt t.data).getD (-1)

/-- Modelled from the spec (§4.3 step 8): a boolean flag parsed from its raw
text (`0`/`1` text per §6); an absent or unrecognized flag defaults to
`false` (§7, missing optional attribute). -/
def flagFromSource (o : Option String) : Bool :=
  match o with
  | none => false
  | some t => t = "1"

/-- Modelled from the spec (§4.3 step 7): whether a subsystem id pair is the
sentinel "absent" value — all-zero or all-`FF` bytes. -/
def subsystemAbsent (v d : List Nat) : Bool :=
  (v.all (fun b => b = 0) && d.all (fun b => b = 0)) ||
  (v.all (fun b => b = 255) && d.all (fun b => b = 255))

/-- Construction failures surfaced to the caller (spec §7): an address that
resolves to no recognized shape, or an Attribute Source that cannot supply
a mandatory identifier field. -/
inductive ConstructError where
  | unresolvableAddress
  | missingMandatoryAttribute
deriving DecidableEq

/-- The Device Record (spec §3): raw and resolved attributes for one PCI
device.  `address` is the canonical full-form rendering of `location`;
`path` is the registry root joined with it. -/
structure DeviceRecord where
  location : Location
  address : String
  path : String
  vendor_id : List Nat
  device_id : List Nat
  class_id : List Nat
  revision : List Nat
  subsystem_vendor_id : List Nat
  subsystem_device_id : List Nat
  numa_node : Int
  enabled : Bool
  d3cold_allowed : Bool
  vendor_name : String
  device_name : String
  class_name : String
  subsystem_name : String
deriving DecidableEq

/-- Modelled from the spec (§4.3 Initializer, whose implementation module is
absent from the tree): given the resolved location, its canonical character
rendering and the raw attributes pulled from the Attribute Source, populate
a Device Record.  Mandatory identifier fields missing is a construction
failure; optional fields default; names resolve through the Identifier
Database with empty-string fallback (class names retry a narrower 2-byte
key, subsystem names fall back when the ids are the absent sentinel). -/
def init (db : IdDatabase) (loc : Location) (canon : List Char)
    (a : RawAttributes) : Except ConstructError DeviceRecord :=
  match a.vendor_id, a.device_id, a.class_id with
  | some vid, some did, some cid =>
    let svid := (a.subsystem_vendor_id).getD [0, 0]
    let sdid := (a.subsystem_device_id).getD [0, 0]
    .ok {
      location := loc
      address := String.mk canon
      path := String.mk (registryRoot ++ canon)
      vendor_id := vid
      device_id := did
      class_id := cid
      revision := (a.revision).getD [0]
      subsystem_vendor_id := svid
      subsystem_device_id := sdid
      numa_node := numaFromSource a.numa_node
      enabled := flagFromSource a.enabled
      d3cold_allowed := flagFromSource a.d3cold_allowed
      vendor_name := (lookup_vendor db vid).getD ("")
      device_name := (lookup_device db vid did).getD ("")
      class_name := ((lookup_class db cid).orElse
        fun _ => lookup_class db (cid.take 2)).getD ("")
      subsystem_name :=
        if subsystemAbsent svid sdid then ("")
        else (lookup_subsystem db svid sdid).getD ("") }
  | _, _, _ => .error .missingMandatoryAttribute

namespace PCIDevice

/-- Modelled from the spec (§6 construction entry point, `Properties::new`
in `lib.rs`): accepts an address string in one of the three §4.1 shapes;
an unresolvable address is surfaced as a construction failure, otherwise
the Initializer populates the record from the Attribute Source. -/
def new (db : IdDatabase) (src : AttributeSource) (s : String) :
    Except ConstructError DeviceRecord :=
  match normalizeChars s.data with
  | none => .error .unresolvableAddress
  | some (loc, canon) => init db loc canon (src loc)

end PCIDevice

/-- Modelled from the spec (§4.4, the `classes` module absent from the
tree): the fixed enumeration of known PCI base-class codes. -/
inductive DeviceClass where
  | Unclassified
  | MassStorageController
  | NetworkController
  | DisplayController
  | MultimediaController
  | MemoryController
  | Bridge
  | CommunicationController
  | GenericSystemPeripheral
  | InputDeviceController
  | DockingStation
  | Processor
  | SerialBusController
  | WirelessController
  | IntelligentController
  | SatelliteCommunicationsController
  | EncryptionController
  | SignalProcessingController
  | ProcessingAccelerator
  | NonEssentialInstrumentation
  | Coprocessor
deriving DecidableEq

/-- The canonical base-class code of each named class (the public PCI
base-class byte assignment). -/
def DeviceClass.code : DeviceClass → Nat
  | .Unclassified => 0x00
  | .MassStorageController => 0x01
  | .NetworkController => 0x02
  | .DisplayController => 0x03
  | .MultimediaController => 0x04
  | .MemoryController => 0x05
  | .Bridge => 0x06
  | .CommunicationController => 0x07
  | .GenericSystemPeripheral => 0x08
  | .InputDeviceController => 0x09
  | .DockingStation => 0x0a
  | .Processor => 0x0b
  | .SerialBusController => 0x0c
  | .WirelessController => 0x0d
  | .IntelligentController => 0x0e
  | .SatelliteCommunicationsController => 0x0f
  | .EncryptionController => 0x10
  | .SignalProcessingController => 0x11
  | .ProcessingAccelerator => 0x12
  | .NonEssentialInstrumentation => 0x13
  | .Coprocessor => 0x40

/-- The base-class byte of a record: the first byte of its 3-byte
`class_id` (base class, subclass, programming interface — spec §3). -/
def baseClassByte (r : DeviceRecord) : Nat :=
  r.class_id.headD 0

/-- Modelled from the spec (§4.5 GPU Name Refiner device-name masking):
when the string contains a bracketed segment, the refined name is the
bracket's inner content with surrounding whitespace trimmed; otherwise the
raw string is unchanged.  Character-list trim of spaces. -/
def trimSpaces (l : List Char) : List Char :=
  ((l.dropWhile fun c => c = ' ').reverse.dropWhile fun c => c = ' ').reverse

/-- Split at the first occurrence of `c`: the part before it and the part
after it, or `none` when `c` does not occur. -/
def splitFirst (c : Char) : List Char → Option (List Char × List Char)
  | [] => none
  | a :: rest =>
    if a = c then some ([], rest)
    else (splitFirst c rest).map fun p => (a :: p.1, p.2)

/-- Device-name masking on character lists: content of the first bracketed
segment, trimmed; the input when no complete bracket is present. -/
def refineNameChars (l : List Char) : List Char :=
  match splitFirst '[' l with
  | none => l
  | some (_, rest) =>
    match splitFirst ']' rest with
    | none => l
    | some (inner, _) => trimSpaces inner

/-- Modelled from the spec (§4.5): device-name masking on strings, e.g.
`TU117M [GeForce GTX 1650 Mobile / Max-Q]` becomes
`GeForce GTX 1650 Mobile / Max-Q`. -/
def refine_device_name (s : String) : String :=
  String.mk (refineNameChars s.data)

/-- Modelled from the spec (§4.5 vendor-name masking): the fixed alias
table mapping known raw vendor strings to a short canonical form. -/
def vendorAliases : List (String × String) :=
  [("NVIDIA Corporation", "NVIDIA"),
   ("Advanced Micro Devices, Inc.", "AMD"),
   ("Intel Corporation", "Intel")]

/-- Vendor-name masking: the alias when the raw string matches an alias
entry, the raw string unchanged otherwise. -/
def refine_vendor_name (s : String) : String :=
  (vendorAliases.lookup s).getD s

/-- The GPU Name Refiner applied to one record (spec §4.5): refines
`device_name` and `vendor_name`, leaving every other field — in particular
the raw identifier fields — untouched. -/
def refineRecord (r : DeviceRecord) : DeviceRecord :=
  { r with
    device_name := refine_device_name r.device_name
    vendor_name := refine_vendor_name r.vendor_name }

/-- Modelled from the spec (§4.4 Enumerator, whose implementation module is
absent from the tree): `fetch()` constructs one record per registry
location, skipping — not failing the whole call on — any single location
whose construction fails.  The registry listing is an external parameter. -/
def fetch (db : IdDatabase) (src : AttributeSource) (reg : List String) :
    List DeviceRecord :=
  reg.filterMap fun a => (PCIDevice.new db src a).toOption

/-- Modelled from the spec (§4.4): `fetch_by_class(class)` is `fetch()`
filtered by comparing each record's `class_id` base-class byte against the
requested class's canonical base-class code. -/
def fetch_by_class (db : IdDatabase) (src : AttributeSource)
    (reg : List String) (c : DeviceClass) : List DeviceRecord :=
  (fetch db src reg).filter fun r => baseClassByte r = DeviceClass.code c

/-- Modelled from the spec (§4.4): `fetch_gpus()` =
`fetch_by_class(DisplayController)` with every record additionally passed
through the GPU Name Refiner before being returned. -/
def fetch_gpus (db : IdDatabase) (src : AttributeSource)
    (reg : List String) : List DeviceRecord :=
  (fetch_by_class db src reg .DisplayController).map refineRecord

/-- A value observable through the public accessor surface. -/
inductive ObsValue where
  | str : String → ObsValue
  | bytes : List Nat → ObsValue
  | int : Int → ObsValue
  | bool : Bool → ObsValue
deriving DecidableEq

/-- The read-only accessors reachable on a constructed record: exactly the
getters `lib.rs` declares on `PrivateProperties` (lines 54–99); the setters
there are `#[doc(hidden)]` inside the `pub(crate) mod private`, so no
mutating operation is part of the public surface. -/
inductive PublicOp where
  | getPath
  | getAddress
  | getClassId
  | getVendorId
  | getDeviceId
  | getNumaNode
  | getClassName
  | getVendorName
  | getDeviceName
  | getEnabled
  | getD3coldAllowed
  | getRevision
  | getSubsystemName
  | getSubsystemVendorId
  | getSubsystemDeviceId
deriving DecidableEq

/-- The value an accessor returns: the corresponding stored field of the
record — attributes are read from the Attribute Source only at
construction time (spec §3 invariant), so no accessor consults the source. -/
def observe (r : DeviceRecord) : PublicOp → ObsValue
  | .getPath => .str r.path
  | .getAddress => .str r.address
  | .getClassId => .bytes r.class_id
  | .getVendorId => .bytes r.vendor_id
  | .getDeviceId => .bytes r.device_id
  | .getNumaNode => .int r.numa_node
  | .getClassName => .str r.class_name
  | .getVendorName => .str r.vendor_name
  | .getDeviceName => .str r.device_name
  | .getEnabled => .bool r.enabled
  | .getD3coldAllowed => .bool r.d3cold_allowed
  | .getRevision => .bytes r.revision
  | .getSubsystemName => .str r.subsystem_name
  | .getSubsystemVendorId => .bytes r.subsystem_vendor_id
  | .getSubsystemDeviceId => .bytes r.subsystem_device_id

/-- Applying a public operation to a record: the observed value together
with the record state afterwards.  The public surface exposes no setter
(`lib.rs` keeps them crate-private), so the record component is the
accessor's read of the unchanged record. -/
def applyOp (r : DeviceRecord) (op : PublicOp) : ObsValue × DeviceRecord :=
  (observe r op, r)

/-- Run a sequence of public operations, threading the record state. -/
def runOps (r : DeviceRecord) : List PublicOp → DeviceRecord
  | [] => r
  | op :: rest => runOps (applyOp r op).2 rest

/-- Modelled from the spec (§4.2, §9): the process-wide state the
identifier table lives in — loaded once, read-only thereafter. -/
structure ProcessState where
  db : IdDatabase

/-- A `lookup_vendor` call as observed against process state: the result
together with the state after the call. -/
def lookup_vendor_call (st : ProcessState) (v : List Nat) :
    Option String × ProcessState :=
  (lookup_vendor st.db v, st)

/-- A `lookup_device` call as observed against process state. -/
def lookup_device_call (st : ProcessState) (v d : List Nat) :
    Option String × ProcessState :=
  (lookup_device st.db v d, st)

/-- A `lookup_class` call as observed against process state. -/
def lookup_class_call (st : ProcessState) (c : List Nat) :
    Option String × ProcessState :=
  (lookup_class st.db c, st)

/-- A source record with every field absent, for concrete instances. -/
def emptyAttributes : RawAttributes where
  vendor_id := none
  device_id := none
  class_id := none
  revision := none
  subsystem_vendor_id := none
  subsystem_device_id := none
  enabled := none
  d3cold_allowed := none
  numa_node := none

/-- An empty identifier database, for concrete instances. -/
def emptyDb : IdDatabase where
  vendors := []
  devices := []
  classes := []
  subsystems := []

/-- A concrete simulated source record for a display-class device. -/
def sampleAttributes : RawAttributes where
  vendor_id := some [134, 128]
  device_id := some [22, 62]
  class_id := some [3, 0, 0]
  revision := none
  subsystem_vendor_id := none
  subsystem_device_id := none
  enabled := none
  d3cold_allowed := none
  numa_node := none

/-- A concrete simulated Attribute Source reporting `sampleAttributes` at
every location. -/
def sampleSource : AttributeSource :=
  fun _ => sampleAttributes

/-- A concrete simulated device registry holding one address. -/
def sampleRegistry : List String :=
  ["0000:00:02.0"]

/-- The record `PCIDevice.new` constructs for `0000:00:02.0` against
`emptyDb` and `sampleSource`, written out. -/
def sampleRecord : DeviceRecord where
  location := { domain := 0, bus := 0, dev := 2, func := 0 }
  address := "0000:00:02.0"
  path := "/sys/bus/pci/devices/0000:00:02.0"
  vendor_id := [134, 128]
  device_id := [22, 62]
  class_id := [3, 0, 0]
  revision := [0]
  subsystem_vendor_id := [0, 0]
  subsystem_device_id := [0, 0]
  numa_node := -1
  enabled := false
  d3cold_allowed := false
  vendor_name := ""
  device_name := ""
  class_name := ""
  subsystem_name := ""

/-! ## Helper lemmas -/

theorem hex_ne_colon {c : Char} (h : isHexDigit c = true) : ¬ c = ':' :=
  fun e => by subst e; exact absurd h (by decide)

theorem hex_ne_dot {c : Char} (h : isHexDigit c = true) : ¬ c = '.' :=
  fun e => by subst e; exact absurd h (by decide)

theorem hex_ne_slash {c : Char} (h : isHexDigit c = true) : ¬ c = '/' :=
  fun e => by subst e; exact absurd h (by decide)

theorem hex_exists_val {c : Char} (h : isHexDigit c = true) :
    ∃ v, hexVal c = some v := by
  simpa [isHexDigit, Option.isSome_iff_exists] using h

theorem hexVal_zero : hexVal '0' = some 0 := by decide

theorem string_mk_prepend_domain (l : List Char) :
    "0000:" ++ String.mk l = String.mk ('0' :: '0' :: '0' :: '0' :: ':' :: l) :=
  rfl

/-- C3: for every valid short-form address `BB:DD.F` (five hexadecimal
component characters), normalization produces the full form `0000:BB:DD.F`,
and normalization is idempotent: normalizing its own output returns the
same string. -/
theorem short_form_normalize_idempotent (b1 b2 d1 d2 f1 : Char)
    (h1 : isHexDigit b1 = true) (h2 : isHexDigit b2 = true)
    (h3 : isHexDigit d1 = true) (h4 : isHexDigit d2 = true)
    (h5 : isHexDigit f1 = true) :
    normalize (String.mk [b1, b2, ':', d1, d2, '.', f1])
      = some ("0000:" ++ String.mk [b1, b2, ':', d1, d2, '.', f1])
    ∧ normalize ("0000:" ++ String.mk [b1, b2, ':', d1, d2, '.', f1])
      = some ("0000:" ++ String.mk [b1, b2, ':', d1, d2, '.', f1]) := by
  obtain ⟨v1, hv1⟩ := hex_exists_val h1
  obtain ⟨v2, hv2⟩ := hex_exists_val h2
  obtain ⟨v3, hv3⟩ := hex_exists_val h3
  obtain ⟨v4, hv4⟩ := hex_exists_val h4
  obtain ⟨v5, hv5⟩ := hex_exists_val h5
  rw [string_mk_prepend_domain]
  constructor <;>
    simp [normalize, normalizeChars, containsChar, splitOnChar, consHead,
      parseFullForm, parseHexW, parseHexCore, hexVal_zero,
      hv1, hv2, hv3, hv4, hv5,
      hex_ne_colon h1, hex_ne_colon h2, hex_ne_colon h3, hex_ne_colon h4,
      hex_ne_colon h5, hex_ne_dot h1, hex_ne_dot h2, hex_ne_dot h3,
      hex_ne_dot h4, hex_ne_dot h5, hex_ne_slash h1, hex_ne_slash h2,
      hex_ne_slash h3, hex_ne_slash h4, hex_ne_slash h5]

/-- Witness for C3 at the concrete short form `00:02.0`. -/
theorem short_form_normalize_idempotent_witness :
    normalize ("00:02.0") = some ("0000:" ++ "00:02.0")
    ∧ normalize ("0000:" ++ "00:02.0") = some ("0000:" ++ "00:02.0") :=
  short_form_normalize_idempotent '0' '0' '0' '2' '0'
    (by decide) (by decide) (by decide) (by decide) (by decide)

theorem normalizeChars_three_shapes (b1 b2 d1 d2 f1 : Char)
    (h1 : isHexDigit b1 = true) (h2 : isHexDigit b2 = true)
    (h3 : isHexDigit d1 = true) (h4 : isHexDigit d2 = true)
    (h5 : isHexDigit f1 = true) :
    ∃ loc : Location,
      normalizeChars [b1, b2, ':', d1, d2, '.', f1]
        = some (loc, '0' :: '0' :: '0' :: '0' :: ':'
            :: [b1, b2, ':', d1, d2, '.', f1])
      ∧ normalizeChars ('0' :: '0' :: '0' :: '0' :: ':'
            :: [b1, b2, ':', d1, d2, '.', f1])
        = some (loc, '0' :: '0' :: '0' :: '0' :: ':'
            :: [b1, b2, ':', d1, d2, '.', f1])
      ∧ normalizeChars (registryRoot ++ '0' :: '0' :: '0' :: '0' :: ':'
            :: [b1, b2, ':', d1, d2, '.', f1])
        = some (loc, '0' :: '0' :: '0' :: '0' :: ':'
            :: [b1, b2, ':', d1, d2, '.', f1]) := by
  obtain ⟨v1, hv1⟩ := hex_exists_val h1
  obtain ⟨v2, hv2⟩ := hex_exists_val h2
  obtain ⟨v3, hv3⟩ := hex_exists_val h3
  obtain ⟨v4, hv4⟩ := hex_exists_val h4
  obtain ⟨v5, hv5⟩ := hex_exists_val h5
  refine ⟨Location.mk 0 (v1 * 16 + v2) (v3 * 16 + v4) v5, ?_, ?_, ?_⟩ <;>
    simp [normalizeChars, registryRoot, containsChar, lastSegment,
      splitOnChar, consHead, parseFullForm, parseHexW, parseHexCore,
      hexVal_zero, hv1, hv2, hv3, hv4, hv5,
      hex_ne_colon h1, hex_ne_colon h2, hex_ne_colon h3, hex_ne_colon h4,
      hex_ne_colon h5, hex_ne_dot h1, hex_ne_dot h2, hex_ne_dot h3,
      hex_ne_dot h4, hex_ne_dot h5, hex_ne_slash h1, hex_ne_slash h2,
      hex_ne_slash h3, hex_ne_slash h4, hex_ne_slash h5]

/-- C4: for one physical device, constructing a record from the short form,
the full form, and an absolute registry path ending in the full form,
backed by the same Attribute Source, yields the very same result — in
particular records with identical `location`, `vendor_id` and `device_id`. -/
theorem three_shapes_same_record (db : IdDatabase) (src : AttributeSource)
    (b1 b2 d1 d2 f1 : Char)
    (h1 : isHexDigit b1 = true) (h2 : isHexDigit b2 = true)
    (h3 : isHexDigit d1 = true) (h4 : isHexDigit d2 = true)
    (h5 : isHexDigit f1 = true) :
    PCIDevice.new db src (String.mk [b1, b2, ':', d1, d2, '.', f1])
      = PCIDevice.new db src
          ("0000:" ++ String.mk [b1, b2, ':', d1, d2, '.', f1])
    ∧ PCIDevice.new db src
          ("0000:" ++ String.mk [b1, b2, ':', d1, d2, '.', f1])
      = PCIDevice.new db src (String.mk (registryRoot ++ '0' :: '0' :: '0'
          :: '0' :: ':' :: [b1, b2, ':', d1, d2, '.', f1]))
    ∧ ∀ r1 r2,
        PCIDevice.new db src (String.mk [b1, b2, ':', d1, d2, '.', f1])
          = .ok r1 →
        PCIDevice.new db src (String.mk (registryRoot ++ '0' :: '0' :: '0'
            :: '0' :: ':' :: [b1, b2, ':', d1, d2, '.', f1])) = .ok r2 →
        r1.location = r2.location ∧ r1.vendor_id = r2.vendor_id
          ∧ r1.device_id = r2.device_id := by
  obtain ⟨loc, hs, hf, hp⟩ :=
    normalizeChars_three_shapes b1 b2 d1 d2 f1 h1 h2 h3 h4 h5
  rw [string_mk_prepend_domain]
  have e1 : PCIDevice.new db src (String.mk [b1, b2, ':', d1, d2, '.', f1])
      = PCIDevice.new db src (String.mk ('0' :: '0' :: '0' :: '0' :: ':'
        :: [b1, b2, ':', d1, d2, '.', f1])) := by
    simp [PCIDevice.new, hs, hf]
  have e2 : PCIDevice.new db src (String.mk ('0' :: '0' :: '0' :: '0' :: ':'
        :: [b1, b2, ':', d1, d2, '.', f1]))
      = PCIDevice.new db src (String.mk (registryRoot ++ '0' :: '0' :: '0'
        :: '0' :: ':' :: [b1, b2, ':', d1, d2, '.', f1])) := by
    simp [PCIDevice.new, hf, hp]
  refine ⟨e1, e2, ?_⟩
  intro r1 r2 hr1 hr2
  rw [e1, e2, hr2] at hr1
  cases hr1
  exact ⟨rfl, rfl, rfl⟩

/-- Witness for C4 at the device `00:02.0` of the `lib.rs` doc example. -/
theorem three_shapes_same_record_witness :
    PCIDevice.new emptyDb (fun _ => emptyAttributes) "00:02.0"
      = PCIDevice.new emptyDb (fun _ => emptyAttributes) ("0000:" ++ "00:02.0") :=
  (three_shapes_same_record emptyDb (fun _ => emptyAttributes)
    '0' '0' '0' '2' '0' (by decide) (by decide) (by decide) (by decide)
    (by decide)).1

/-- C2: an input string on which the Address Normalizer fails — it matches
no accepted shape or has an out-of-range hex component — makes record
construction surface the unresolvable-address failure to the caller at
construction time, as an explicit error value: the constructor never
silently defaults a record, and being a total function of its inputs it
cannot panic the process. -/
theorem unresolvable_address_surfaced (db : IdDatabase)
    (src : AttributeSource) (s : String) (h : normalize s = none) :
    PCIDevice.new db src s = .error .unresolvableAddress := by
  have h0 : normalizeChars s.data = none := by
    simpa [normalize] using h
  simp [PCIDevice.new, h0]

/-- Witness for C2 at a concrete malformed address. -/
theorem unresolvable_address_surfaced_witness :
    normalize ("not-an-address") = none
    ∧ PCIDevice.new emptyDb (fun _ => emptyAttributes) "not-an-address"
        = .error .unresolvableAddress := by
  constructor
  · decide
  · exact unresolvable_address_surfaced _ _ _ (by decide)

theorem splitFirst_append (c : Char) (pre rest : List Char)
    (h : containsChar c pre = false) :
    splitFirst c (pre ++ c :: rest) = some (pre, rest) := by
  induction pre with
  | nil => simp [splitFirst]
  | cons a t ih =>
    by_cases hac : a = c
    · rw [containsChar, if_pos hac] at h
      cases h
    · rw [containsChar, if_neg hac] at h
      simp [splitFirst, hac, ih h]

theorem splitFirst_none (c : Char) (l : List Char)
    (h : containsChar c l = false) : splitFirst c l = none := by
  induction l with
  | nil => rfl
  | cons a t ih =>
    by_cases hac : a = c
    · rw [containsChar, if_pos hac] at h
      cases h
    · rw [containsChar, if_neg hac] at h
      simp [splitFirst, hac, ih h]

/-- C5: the GPU name refiner takes, on a device name containing a bracketed
segment, the bracket's inner content with surrounding whitespace trimmed
(in particular on the `TU117M [GeForce GTX 1650 Mobile / Max-Q]` example);
on each known vendor string of the alias table it returns the short
canonical alias (in particular `NVIDIA Corporation` becomes `NVIDIA`); and
on any name with no bracket and no alias entry it returns the input
unchanged (in particular on `Raphael`). -/
theorem gpu_name_refiner_behavior :
    (∀ pre inner post : List Char,
        containsChar '[' pre = false → containsChar ']' inner = false →
        refineNameChars (pre ++ '[' :: (inner ++ ']' :: post))
          = trimSpaces inner)
    ∧ refine_device_name ("TU117M [GeForce GTX 1650 Mobile / Max-Q]")
        = "GeForce GTX 1650 Mobile / Max-Q"
    ∧ refine_vendor_name ("NVIDIA Corporation") = "NVIDIA"
    ∧ (∀ p ∈ vendorAliases, refine_vendor_name p.1 = p.2)
    ∧ (∀ s : String, containsChar '[' s.data = false →
        vendorAliases.lookup s = none →
        refine_device_name s = s ∧ refine_vendor_name s = s)
    ∧ refine_device_name ("Raphael") = "Raphael"
    ∧ refine_vendor_name ("Raphael") = "Raphael" := by
  refine ⟨?_, by decide, by decide, by decide, ?_, by decide, by decide⟩
  · intro pre inner post hpre hinner
    have h1 : splitFirst '[' (pre ++ '[' :: (inner ++ ']' :: post))
        = some (pre, inner ++ ']' :: post) := splitFirst_append _ _ _ hpre
    have h2 : splitFirst ']' (inner ++ ']' :: post) = some (inner, post) :=
      splitFirst_append _ _ _ hinner
    simp [refineNameChars, h1, h2]
  · intro s hnb hna
    obtain ⟨l⟩ := s
    refine ⟨?_, ?_⟩
    · show String.mk (refineNameChars l) = String.mk l
      rw [refineNameChars, splitFirst_none _ _ hnb]
    · show (vendorAliases.lookup (String.mk l)).getD (String.mk l)
        = String.mk l
      rw [hna]
      rfl

/-- Witness for C5 at the bracketed and bracket-free example names. -/
theorem gpu_name_refiner_behavior_witness :
    refineNameChars ("TU117M ".data
        ++ '[' :: ("GeForce GTX 1650 Mobile / Max-Q".data ++ ']' :: []))
      = trimSpaces ("GeForce GTX 1650 Mobile / Max-Q".data)
    ∧ refine_device_name ("Raphael") = "Raphael"
    ∧ refine_vendor_name ("Raphael") = "Raphael" := by
  obtain ⟨h1, h2, h3, h4, h5, h6, h7⟩ := gpu_name_refiner_behavior
  exact ⟨h1 _ _ _ (by decide) (by decide),
    h5 ("Raphael") (by decide) (by decide)⟩

/-- C7: with the mandatory identifier fields present, construction succeeds
whatever the optional fields are — an absent optional attribute is never a
construction error — and the record's `numa_node` is parsed from the raw
source text so that text `-1` yields `-1`, an absent entry yields `-1`, and
a non-numeric source yields `-1`. -/
theorem numa_node_defaulting (db : IdDatabase) (loc : Location)
    (canon : List Char) (a : RawAttributes) (vid did cid : List Nat)
    (hv : a.vendor_id = some vid) (hd : a.device_id = some did)
    (hc : a.class_id = some cid) :
    (init db loc canon a).isOk = true
    ∧ (∀ r, init db loc canon a = .ok r →
        r.numa_node = numaFromSource a.numa_node)
    ∧ numaFromSource (some ("-1")) = -1
    ∧ numaFromSource none = -1
    ∧ (∀ t : String, parseDecInt t.data = none →
        numaFromSource (some t) = -1) := by
  refine ⟨?_, ?_, by decide, rfl, ?_⟩
  · simp [init, hv, hd, hc, Except.isOk, Except.toBool]
  · intro r hr
    simp [init, hv, hd, hc] at hr
    subst hr
    rfl
  · intro t ht
    simp [numaFromSource, ht]

/-- Witness for C7 at a simulated device with no numa entry. -/
theorem numa_node_defaulting_witness :
    (init emptyDb (Location.mk 0 0 2 0) [] sampleAttributes).isOk = true
    ∧ numaFromSource (some ("-1")) = -1
    ∧ numaFromSource none = -1 := by
  obtain ⟨hok, _, hminus, hnone, _⟩ := numa_node_defaulting emptyDb
    (Location.mk 0 0 2 0) [] sampleAttributes [134, 128] [22, 62] [3, 0, 0]
    (by decide) (by decide) (by decide)
  exact ⟨hok, hminus, hnone⟩

/-- C8: when a record's vendor id has no entry in the Identifier Database,
its resolved `vendor_name` is the empty string, construction still succeeds
(no error, and a total function cannot panic), and every other field of the
record remains populated exactly as the Initializer prescribes. -/
theorem unknown_vendor_empty_name (db : IdDatabase) (loc : Location)
    (canon : List Char) (a : RawAttributes) (vid did cid : List Nat)
    (hv : a.vendor_id = some vid) (hd : a.device_id = some did)
    (hc : a.class_id = some cid)
    (hlk : lookup_vendor db vid = none) :
    (init db loc canon a).isOk = true
    ∧ ∀ r, init db loc canon a = .ok r →
        r.vendor_name = ""
        ∧ r.vendor_id = vid ∧ r.device_id = did ∧ r.class_id = cid
        ∧ r.location = loc ∧ r.address = String.mk canon
        ∧ r.path = String.mk (registryRoot ++ canon)
        ∧ r.revision = (a.revision).getD [0]
        ∧ r.numa_node = numaFromSource a.numa_node
        ∧ r.enabled = flagFromSource a.enabled
        ∧ r.d3cold_allowed = flagFromSource a.d3cold_allowed
        ∧ r.device_name = (lookup_device db vid did).getD ("") := by
  constructor
  · simp [init, hv, hd, hc, Except.isOk, Except.toBool]
  · intro r hr
    simp [init, hv, hd, hc] at hr
    subst hr
    refine ⟨?_, rfl, rfl, rfl, rfl, rfl, rfl, rfl, rfl, rfl, rfl, rfl⟩
    show (lookup_vendor db vid).getD ("") = ""
    rw [hlk]
    rfl

/-- Witness for C8 at a simulated device whose vendor id is unknown to the
empty database. -/
theorem unknown_vendor_empty_name_witness :
    (init emptyDb (Location.mk 0 0 2 0) "0000:00:02.0".data
      sampleAttributes).isOk = true
    ∧ sampleRecord.vendor_name = "" := by
  obtain ⟨hok, hall⟩ := unknown_vendor_empty_name emptyDb
    (Location.mk 0 0 2 0) "0000:00:02.0".data sampleAttributes
    [134, 128] [22, 62] [3, 0, 0]
    (by decide) (by decide) (by decide) (by decide)
  exact ⟨hok, (hall sampleRecord (by rfl)).1⟩

/-- C1: `fetch_gpus()` returns exactly the `fetch_by_class(DisplayController)`
sequence with the GPU Name Refiner applied to each record's `device_name`
and `vendor_name`, and every record's raw `vendor_id` and `device_id` equal
those of the corresponding `fetch_by_class(DisplayController)` record. -/
theorem fetch_gpus_refinement (db : IdDatabase) (src : AttributeSource)
    (reg : List String) :
    fetch_gpus db src reg
      = (fetch_by_class db src reg .DisplayController).map
          (fun r =>
            { r with
              device_name := refine_device_name r.device_name
              vendor_name := refine_vendor_name r.vendor_name })
    ∧ (fetch_gpus db src reg).map (fun r => (r.vendor_id, r.device_id))
      = (fetch_by_class db src reg .DisplayController).map
          (fun r => (r.vendor_id, r.device_id)) := by
  refine ⟨rfl, ?_⟩
  simp [fetch_gpus, List.map_map, Function.comp, refineRecord]

/-- C6: for every named base class, `fetch_by_class(X)` is a subset — in
fact a sublist — of `fetch()`, every record it returns has base-class byte
equal to X's canonical code, and no record of `fetch()` left out of
`fetch_by_class(X)` has base-class byte equal to X's code. -/
theorem fetch_by_class_is_class_filter (db : IdDatabase)
    (src : AttributeSource) (reg : List String) (c : DeviceClass)
    (r : DeviceRecord) :
    (fetch_by_class db src reg c).Sublist (fetch db src reg)
    ∧ (r ∈ fetch_by_class db src reg c → baseClassByte r = DeviceClass.code c)
    ∧ (r ∈ fetch db src reg → r ∉ fetch_by_class db src reg c →
        baseClassByte r ≠ DeviceClass.code c) := by
  refine ⟨List.filter_sublist _, ?_, ?_⟩
  · intro hr
    have := (List.mem_filter.mp hr).2
    simpa using this
  · intro hmem hnot hbase
    exact hnot (List.mem_filter.mpr ⟨hmem, by simpa using hbase⟩)

/-- Witness for C6 at a one-device display-class registry. -/
theorem fetch_by_class_is_class_filter_witness :
    (fetch_by_class emptyDb sampleSource sampleRegistry
      .DisplayController).Sublist (fetch emptyDb sampleSource sampleRegistry)
    ∧ baseClassByte sampleRecord
        = DeviceClass.code .DisplayController := by
  obtain ⟨hsub, hmem, hcomp⟩ := fetch_by_class_is_class_filter emptyDb
    sampleSource sampleRegistry .DisplayController sampleRecord
  exact ⟨hsub, hmem (by decide)⟩

/-- C9: after construction a record is immutable through the public
surface: the reachable operations are the read-only accessors (`lib.rs`
keeps the setters crate-private), running any sequence of them leaves the
record unchanged, and — accessors reading only stored fields, never the
Attribute Source — every accessor returns the same value on every call. -/
theorem record_immutable_after_construction (r : DeviceRecord)
    (ops : List PublicOp) (op : PublicOp) :
    runOps r ops = r ∧ observe (runOps r ops) op = observe r op := by
  have h : ∀ l (r0 : DeviceRecord), runOps r0 l = r0 := by
    intro l
    induction l with
    | nil => intro r0; rfl
    | cons a t ih => intro r0; simpa [runOps, applyOp] using ih r0
  exact ⟨h ops r, by rw [h ops r]⟩

/-- C10: the identifier-database lookups are pure and deterministic: a call
returns the process state unchanged, and a repeated call with the same
identifier against the state left by the first call returns the same
result, for `lookup_vendor`, `lookup_device` and `lookup_class` alike. -/
theorem lookups_pure_deterministic (st : ProcessState) (v d c : List Nat) :
    (lookup_vendor_call st v).2 = st
    ∧ (lookup_vendor_call (lookup_vendor_call st v).2 v).1
        = (lookup_vendor_call st v).1
    ∧ (lookup_device_call st v d).2 = st
    ∧ (lookup_device_call (lookup_device_call st v d).2 v d).1
        = (lookup_device_call st v d).1
    ∧ (lookup_class_call st c).2 = st
    ∧ (lookup_class_call (lookup_class_call st c).2 c).1
        = (lookup_class_call st c).1 :=
  ⟨rfl, rfl, rfl, rfl, rfl, rfl⟩

end Aparato






